import Mathlib

/-!
Verification of the slide-state detection and reconciliation core of the
que-pilot repository.

The embedding covers, from src/src/core/presentation/detector.py:
  extract_slide_info_from_title, get_powerpoint_slide_info_macos,
  get_active_powerpoint_window and get_current_slide_info,
and, from src/src/core/presentation/tracker.py:
  next_slide, previous_slide, go_to_slide, extract_slide_text and
  sync_with_powerpoint_window.

Python dictionaries with optional keys become structures with Option
fields, Python truthiness tests become explicit truthy functions, and
the external observations the code makes (subprocess runs, window
enumeration, OCR, the specialised ppt detector) are passed in as
explicit inputs.  Regular-expression searches over window titles are
embedded as executable leftmost-match functions over character lists,
mirroring how re.search resolves the concrete patterns in the source
(each pattern is a literal/digit-run alternation on which greedy
matching is deterministic).
-/

namespace QuePilot

/-! ### Character-list string utilities (executable replacements for the
Python string operations used by the detector) -/

/-- Value of a digit run, as computed by Python int() on a digit string. -/
def digitsToNat (ds : List Char) : Nat :=
  ds.foldl (fun n c => n * 10 + (c.toNat - 48)) 0

/-- Case-sensitive substring test: Python needle in hay. -/
def containsSub : List Char → List Char → Bool
  | [], needle => needle.isEmpty
  | c :: t, needle => needle.isPrefixOf (c :: t) || containsSub t needle

/-- Case-insensitive literal match at the front; returns the rest on success. -/
def matchLitCI : List Char → List Char → Option (List Char)
  | cs, [] => some cs
  | [], _ :: _ => none
  | c :: cs, p :: ps => if c.toLower = p.toLower then matchLitCI cs ps else none

/-- Greedy nonempty digit run at the front; returns its value and the rest. -/
def matchNum (cs : List Char) : Option (Nat × List Char) :=
  let p := cs.span Char.isDigit
  if p.1.isEmpty then none else some (digitsToNat p.1, p.2)

/-- Anchored match for a pattern of shape lit1 digits lit2 digits. -/
def matchPairAt (lit1 lit2 cs : List Char) : Option (Nat × Nat) :=
  match matchLitCI cs lit1 with
  | none => none
  | some r1 =>
    match matchNum r1 with
    | none => none
    | some (a, r2) =>
      match matchLitCI r2 lit2 with
      | none => none
      | some r3 =>
        match matchNum r3 with
        | none => none
        | some (b, _) => some (a, b)

/-- Anchored match for a pattern of shape lit digits. -/
def matchSingleAt (lit cs : List Char) : Option Nat :=
  match matchLitCI cs lit with
  | none => none
  | some r1 =>
    match matchNum r1 with
    | none => none
    | some (a, _) => some a

/-- Leftmost-match search, as re.search: try every start position. -/
def searchAux (f : List Char → Option α) : List Char → Option α
  | [] => f []
  | c :: cs =>
    match f (c :: cs) with
    | some r => some r
    | none => searchAux f cs

/-- re.search of Slide (d+) of (d+), IGNORECASE. -/
def searchP1 (cs : List Char) : Option (Nat × Nat) :=
  searchAux (matchPairAt ("Slide ".toList) (" of ".toList)) cs

/-- re.search of (d+)/(d+). -/
def searchP2 (cs : List Char) : Option (Nat × Nat) :=
  searchAux (matchPairAt [] ("/".toList)) cs

/-- re.search of (d+) of (d+), IGNORECASE. -/
def searchP3 (cs : List Char) : Option (Nat × Nat) :=
  searchAux (matchPairAt [] (" of ".toList)) cs

/-- re.search of Slide (d+), IGNORECASE. -/
def searchP4 (cs : List Char) : Option Nat :=
  searchAux (matchSingleAt ("Slide ".toList)) cs

/-- Python str.strip on a character list. -/
def trimChars (cs : List Char) : List Char :=
  ((cs.dropWhile Char.isWhitespace).reverse.dropWhile Char.isWhitespace).reverse

/-- Python str.strip producing a String. -/
def pyStrip (s : String) : String :=
  (trimChars s.toList).asString

/-- Python str.lower on a character list. -/
def lowerChars (cs : List Char) : List Char := cs.map Char.toLower

/-- Fuel-driven worker for splitting on a nonempty separator. -/
def splitSepAux (sep : List Char) : Nat → List Char → List Char → List (List Char)
  | 0, cs, acc => [acc.reverse ++ cs]
  | _ + 1, [], acc => [acc.reverse]
  | n + 1, c :: rest, acc =>
    if sep.isPrefixOf (c :: rest) then
      acc.reverse :: splitSepAux sep n (List.drop sep.length (c :: rest)) []
    else
      splitSepAux sep n rest (c :: acc)

/-- Python s.split(sep) for a nonempty separator, over character lists. -/
def splitSep (sep cs : List Char) : List (List Char) :=
  splitSepAux sep (cs.length + 1) cs []

/-- Python s.split(sep) producing Strings. -/
def pySplit (sep s : String) : List String :=
  (splitSep sep.toList s.toList).map List.asString

/-- Python isdigit: nonempty and all digits. -/
def strIsDigits (s : String) : Bool :=
  !s.toList.isEmpty && s.toList.all Char.isDigit

/-- Python truthiness of an optional integer (None and 0 are falsy). -/
def truthyNat : Option Nat → Bool
  | none => false
  | some n => n != 0

/-- Python truthiness of .get(key, default-empty).strip() on an optional string. -/
def truthyStr (o : Option String) : Bool :=
  !(trimChars (o.getD "").toList).isEmpty

/-! ### Data model of the detector (detector.py) -/

/-- platform.system() outcomes the code distinguishes. -/
inductive OS
  | darwin
  | windows
  | other
  deriving DecidableEq

/-- Normalised slide-information dictionary.  Keys that a given code path
does not set are modelled as none; mode is always set by every path. -/
structure SlideInfo where
  current_slide : Option Nat
  total_slides : Option Nat
  presentation_name : Option String
  mode : String
  slide_text : Option String
  slide_title : Option String
  detection_method : Option String
  ocr_confidence : Option Nat
  deriving DecidableEq

/-- Dictionary holding only a mode key, as returned by the error paths of
get_powerpoint_slide_info_macos. -/
def modeOnly (m : String) : SlideInfo :=
  { current_slide := none, total_slides := none, presentation_name := none,
    mode := m, slide_text := none, slide_title := none,
    detection_method := none, ocr_confidence := none }

/-- Outcome of the osascript subprocess.run call: normal completion with a
return code and stdout, expiry of the timeout argument, or any other
raised exception. -/
inductive RunResult
  | completed (returncode : Int) (stdout : String)
  | timedOut
  | failed
  deriving DecidableEq

/-- The timeout argument passed to subprocess.run in
get_powerpoint_slide_info_macos (seconds). -/
def macosQueryTimeout : Nat := 8

/-- Embedding of PowerPointWindowDetector.get_powerpoint_slide_info_macos
(detector.py lines 233-437) as a function of the subprocess outcome.  The
AppleScript text itself runs inside PowerPoint; only the parsing of its
piped stdout and the exception handling are code of this function. -/
def get_powerpoint_slide_info_macos (r : RunResult) : SlideInfo :=
  match r with
  | .timedOut => modeOnly "exception"
  | .failed => modeOnly "exception"
  | .completed rc out =>
    if rc = 0 ∧ pyStrip out ≠ "" then
      let parts := pySplit "|" (pyStrip out)
      if 4 ≤ parts.length then
        let p0 := parts.getD 0 ""
        if p0 = "no_presentation" ∨ p0 = "error" then modeOnly p0
        else
          { current_slide :=
              if strIsDigits (parts.getD 1 "") then some (digitsToNat (parts.getD 1 "").toList)
              else none,
            total_slides :=
              if strIsDigits (parts.getD 2 "") then some (digitsToNat (parts.getD 2 "").toList)
              else none,
            presentation_name := if p0 = "" then none else some p0,
            mode := if parts.getD 3 "" = "" then "normal" else parts.getD 3 "",
            slide_text := some (pyStrip (parts.getD 4 "")),
            slide_title := none, detection_method := none, ocr_confidence := none }
      else modeOnly "unknown"
    else modeOnly "unknown"

/-- Mode inference from the window title (detector.py lines 128-133). -/
def modeFromTitle (cs : List Char) : String :=
  if containsSub cs ("Slide Show".toList) then "slideshow"
  else if containsSub cs ("Normal".toList) || containsSub cs ("Edit".toList) then "edit"
  else "normal"

/-- First part (if any) whose lowercase form contains .ppt, stripped
(the loops at detector.py lines 142-145 and 151-154). -/
def findPptPart (parts : List String) : Option String :=
  (parts.find? (fun p => containsSub (lowerChars p.toList) (".ppt".toList))).map pyStrip

/-- The ordered pattern cascade of detector.py lines 112-126: first
pattern that matches anywhere in the title wins; two-group patterns give
current and total, the last pattern gives current only. -/
def patternNumbers (cs : List Char) : Option (Nat × Option Nat) :=
  match searchP1 cs with
  | some (a, b) => some (a, some b)
  | none =>
  match searchP2 cs with
  | some (a, b) => some (a, some b)
  | none =>
  match searchP3 cs with
  | some (a, b) => some (a, some b)
  | none =>
  match searchP4 cs with
  | some a => some (a, none)
  | none => none

/-- The pure title-parsing path of extract_slide_info_from_title
(detector.py lines 112-156): the pattern cascade, mode inference and
presentation-name extraction.  The block at lines 135-147 runs only when
no current slide was found and the title mentions a slide show; the block
at lines 149-154 runs whenever the title contains a separator and a part
mentions .ppt. -/
def parseTitleInfo (title : String) : SlideInfo :=
  let cs := title.toList
  let nums := patternNumbers cs
  let current : Option Nat := nums.map Prod.fst
  let total : Option Nat := nums.bind Prod.snd
  let parts := pySplit " - " title
  let pnameA : Option String :=
    if truthyNat current = false ∧ containsSub cs ("Slide Show".toList) = true then
      if containsSub cs (" - ".toList) = true ∧ 1 < parts.length then
        match findPptPart parts with
        | some p => some p
        | none => some (pyStrip (parts.getD 1 ""))
      else none
    else none
  let pname : Option String :=
    if containsSub cs (" - ".toList) = true then
      match findPptPart parts with
      | some p => some p
      | none => pnameA
    else pnameA
  { current_slide := current, total_slides := total, presentation_name := pname,
    mode := modeFromTitle cs, slide_text := none, slide_title := none,
    detection_method := none, ocr_confidence := none }

/-- Condition at detector.py line 103: on macOS the AppleScript query is
tried first when the title is empty or contains none of the exact
substrings Slide, / and of. -/
def needsAppleScript (title : String) : Bool :=
  title.toList.isEmpty ||
    !(containsSub title.toList ("Slide".toList) ||
      containsSub title.toList ("/".toList) ||
      containsSub title.toList ("of".toList))

/-- Embedding of PowerPointWindowDetector.extract_slide_info_from_title
(detector.py lines 94-156).  On Darwin with an uninformative title the
AppleScript result is returned whole when it carries a truthy
current_slide; in every other case the title is parsed. -/
def extract_slide_info_from_title (sys : OS) (r : RunResult) (title : String) : SlideInfo :=
  if sys = OS.darwin ∧ needsAppleScript title = true then
    let asInfo := get_powerpoint_slide_info_macos r
    if truthyNat asInfo.current_slide = true then asInfo else parseTitleInfo title
  else parseTitleInfo title

/-- A window handle as enumerated by the platform layer: title, owning
application and size (None when the platform reports no size). -/
structure WindowInfo where
  title : String
  app_name : String
  size : Option (Int × Int)
  deriving DecidableEq

/-- Window area used as the max key at detector.py line 485. -/
def windowArea (w : WindowInfo) : Int :=
  match w.size with
  | some p => p.1 * p.2
  | none => 0

/-- Python max with the area key: keeps the first maximum. -/
def maxByArea : WindowInfo → List WindowInfo → WindowInfo
  | best, [] => best
  | best, w :: ws => maxByArea (if windowArea w > windowArea best then w else best) ws

/-- Embedding of get_active_powerpoint_window (detector.py lines 479-485):
none on an empty list, the sole window when there is one, else the first
window whose title contains Slide Show, else the largest window. -/
def get_active_powerpoint_window (ws : List WindowInfo) : Option WindowInfo :=
  match ws with
  | [] => none
  | [w] => some w
  | w :: rest =>
    match (w :: rest).find? (fun v => containsSub v.title.toList ("Slide Show".toList)) with
    | some v => some v
    | none => some (maxByArea w rest)

/-- Result of PPTDetector.detect_current_slide_simple. -/
structure PptInfo where
  current_slide : Option Nat
  total_slides : Option Nat
  presentation_name : Option String
  slide_text : Option String
  detection_method : Option String
  is_ppt : Bool
  deriving DecidableEq

/-- Conversion of the specialised ppt result to the standard dictionary
(detector.py lines 533-540). -/
def pptSpecializedInfo (p : PptInfo) : SlideInfo :=
  { current_slide := p.current_slide, total_slides := p.total_slides,
    presentation_name := p.presentation_name, mode := "ppt_specialized",
    slide_text := some (p.slide_text.getD ""), slide_title := none,
    detection_method := some (p.detection_method.getD "ppt_specialized"),
    ocr_confidence := none }

/-- Result of PowerPointScreenDetector.get_current_slide_info (the OCR
source), as consumed at detector.py lines 557-564. -/
structure ScreenInfo where
  slide_number : Option Nat
  content : String
  title : String
  confidence_score : Nat
  deriving DecidableEq

/-- The OCR merge of detector.py lines 560-564: it assigns current_slide,
slide_text, slide_title, detection_method and ocr_confidence over the
existing dictionary. -/
def ocrMerge (si : SlideInfo) (sc : ScreenInfo) : SlideInfo :=
  { si with
    current_slide := sc.slide_number,
    slide_text := some sc.content,
    slide_title := some sc.title,
    detection_method := some "screen_ocr",
    ocr_confidence := some sc.confidence_score }

/-- The external observations one call to get_current_slide_info makes.
For the two optional detectors the outer Option is availability (the
attribute is None when construction failed) and the inner Option is the
call outcome (none for a None result or a caught exception). -/
structure DetectorEnv where
  system : OS
  pptDetector : Option (Option PptInfo)
  windows : List WindowInfo
  asRun : RunResult
  screenDetector : Option (Option ScreenInfo)
  deriving DecidableEq

/-- The early-return branch of get_current_slide_info (detector.py lines
512-542): on Darwin with an initialised ppt detector whose result has a
truthy current_slide and is_ppt, that result is returned converted. -/
def pptSpecializedResult (env : DetectorEnv) : Option SlideInfo :=
  if env.system = OS.darwin then
    match env.pptDetector with
    | some (some p) =>
      if truthyNat p.current_slide = true ∧ p.is_ppt = true then some (pptSpecializedInfo p)
      else none
    | _ => none
  else none

/-- Embedding of PowerPointWindowDetector.get_current_slide_info
(detector.py lines 511-574): specialised ppt detection first, then the
active window, title/AppleScript extraction, and the OCR fallback, which
runs when the current slide is missing or the slide text is empty. -/
def get_current_slide_info (env : DetectorEnv) : Option SlideInfo :=
  match pptSpecializedResult env with
  | some info => some info
  | none =>
    match get_active_powerpoint_window env.windows with
    | none =>
      if env.system = OS.darwin then
        some (extract_slide_info_from_title env.system env.asRun "")
      else none
    | some w =>
      let si := extract_slide_info_from_title env.system env.asRun w.title
      if (truthyNat si.current_slide = false ∨ truthyStr si.slide_text = false)
          ∧ env.screenDetector.isSome = true then
        match env.screenDetector with
        | some (some sc) =>
          if truthyNat sc.slide_number = true then some (ocrMerge si sc) else some si
        | _ => some si
      else some si

/-! ### Data model and operations of the tracker (tracker.py) -/

/-- The mutable state of a PresentationTracker.  The slides attribute
holds python-pptx slide objects; since their shape trees are external
library data, each loaded slide is abstracted by the text that
extract_slide_text would assemble from its shapes and notes.  Indices and
counts are Python ints, so they are embedded as Int. -/
structure TrackerState where
  ppt_path : Option String
  current_slide_index : Int
  slides : List String
  total_slides : Int
  auto_sync_enabled : Bool
  is_ppt_file : Bool
  window_based_tracking : Bool
  deriving DecidableEq

/-- tracker.py lines 203-207: advance when strictly below total - 1. -/
def next_slide (s : TrackerState) : Bool × TrackerState :=
  if s.current_slide_index < s.total_slides - 1 then
    (true, { s with current_slide_index := s.current_slide_index + 1 })
  else (false, s)

/-- tracker.py lines 209-213: retreat when strictly above 0. -/
def previous_slide (s : TrackerState) : Bool × TrackerState :=
  if s.current_slide_index > 0 then
    (true, { s with current_slide_index := s.current_slide_index - 1 })
  else (false, s)

/-- tracker.py lines 215-219: jump when 1 <= n <= total. -/
def go_to_slide (s : TrackerState) (slide_number : Int) : Bool × TrackerState :=
  if 1 ≤ slide_number ∧ slide_number ≤ s.total_slides then
    (true, { s with current_slide_index := slide_number - 1 })
  else (false, s)

/-- tracker.py lines 224-262, with the pptx shape walk abstracted by the
stored per-slide text: out-of-range indices return the empty string at
line 230, window-based tracking returns the fixed OCR notice at line 234,
and a missing or too-short slides list returns the empty string at
line 238.  The state component records that the function assigns no
attribute. -/
def extract_slide_text (s : TrackerState) (idxArg : Option Int) : String × TrackerState :=
  let slide_index := idxArg.getD s.current_slide_index
  if ¬(0 ≤ slide_index ∧ slide_index < s.total_slides) then ("", s)
  else if s.window_based_tracking = true then
    ("Text extraction from .ppt files requires OCR. Current slide: " ++
      toString (slide_index + 1), s)
  else if s.slides.isEmpty ∨ (s.slides.length : Int) ≤ slide_index then ("", s)
  else (s.slides.getD slide_index.toNat "", s)

/-- The total-slides update at tracker.py lines 600-602: in window-based
mode a truthy total_slides of the signal replaces the stored total. -/
def applyWindowTotal (s : TrackerState) (si : SlideInfo) : TrackerState :=
  if s.window_based_tracking = true ∧ truthyNat si.total_slides = true then
    { s with total_slides := (si.total_slides.getD 0 : Nat) }
  else s

/-- The detected slide number of a signal as a Python int. -/
def detectedSlide (si : SlideInfo) : Int := (si.current_slide.getD 0 : Nat)

/-- Embedding of PresentationTracker.sync_with_powerpoint_window
(tracker.py lines 590-610).  hasDetector is the truthiness of the
window_detector attribute; info is the value returned by the
get_current_slide_info call (none for a None return).  Falsy
current_slide values are dropped, window-based mode takes the total from
the signal, and the index moves only for an in-range value that differs
from the stored index, which is the True case. -/
def sync_with_powerpoint_window (s : TrackerState) (hasDetector : Bool)
    (info : Option SlideInfo) : Bool × TrackerState :=
  if hasDetector = false then (false, s)
  else
    match info with
    | none => (false, s)
    | some si =>
      if truthyNat si.current_slide = false then (false, s)
      else
        let s1 := applyWindowTotal s si
        if 1 ≤ detectedSlide si ∧ detectedSlide si ≤ s1.total_slides then
          if detectedSlide si - 1 ≠ s1.current_slide_index then
            (true, { s1 with current_slide_index := detectedSlide si - 1 })
          else (false, s1)
        else (false, s1)

/-- One reconciliation step as iterated by the polling loop: the state
after a sync_with_powerpoint_window call on a live detector. -/
def reconcileStep (s : TrackerState) (sig : Option SlideInfo) : TrackerState :=
  (sync_with_powerpoint_window s true sig).2

/-! ### Concrete fixtures used by counterexamples and witnesses -/

/-- A directly loaded three-slide presentation sitting on slide 2. -/
def sampleState : TrackerState :=
  { ppt_path := some "deck.pptx", current_slide_index := 1,
    slides := ["alpha", "beta", "gamma"], total_slides := 3,
    auto_sync_enabled := false, is_ppt_file := false,
    window_based_tracking := false }

/-- A tracker before any load: no slides, zero total. -/
def emptyState : TrackerState :=
  { ppt_path := none, current_slide_index := 0, slides := [],
    total_slides := 0, auto_sync_enabled := false, is_ppt_file := false,
    window_based_tracking := false }

/-- A window-tracked legacy file on its last slide: index 4 of 5. -/
def cexTracker : TrackerState :=
  { ppt_path := some "legacy.ppt", current_slide_index := 4, slides := [],
    total_slides := 5, auto_sync_enabled := true, is_ppt_file := true,
    window_based_tracking := true }

/-- A noisy signal: out-of-range slide 10 together with a smaller total. -/
def cexShrinkSignal : SlideInfo :=
  { current_slide := some 10, total_slides := some 3,
    presentation_name := none, mode := "normal", slide_text := none,
    slide_title := none, detection_method := none, ocr_confidence := none }

/-- An ordinary in-range signal for slide 2. -/
def plainSignal : SlideInfo :=
  { current_slide := some 2, total_slides := none, presentation_name := none,
    mode := "normal", slide_text := none, slide_title := none,
    detection_method := none, ocr_confidence := none }

/-- A short polling history: a noisy signal, a failed poll, a good one. -/
def sampleSignals : List (Option SlideInfo) :=
  [some cexShrinkSignal, none, some plainSignal]

/-! ### Claim C4: navigation operations -/

/-- The navigation contract at a given state and target slide number. -/
def NavBoundsProp (s : TrackerState) (n : Int) : Prop :=
  (0 ≤ (next_slide s).2.current_slide_index ∧
    (next_slide s).2.current_slide_index ≤ s.total_slides - 1) ∧
  (0 ≤ (previous_slide s).2.current_slide_index ∧
    (previous_slide s).2.current_slide_index ≤ s.total_slides - 1) ∧
  ((n < 1 ∨ s.total_slides < n) → go_to_slide s n = (false, s)) ∧
  (1 ≤ n → n ≤ s.total_slides →
    go_to_slide s n = (true, { s with current_slide_index := n - 1 }) ∧
    0 ≤ n - 1 ∧ n - 1 ≤ s.total_slides - 1) ∧
  (s.current_slide_index = s.total_slides - 1 → next_slide s = (false, s)) ∧
  (s.current_slide_index = 0 → previous_slide s = (false, s))

/-- Claim C4: from any in-range state, next_slide, previous_slide and
go_to_slide keep the index in the range 0 to total_slides - 1 and return
a success flag; go_to_slide rejects n below 1 or above total_slides
without touching the state and otherwise moves to n - 1; next_slide at
the last slide and previous_slide at the first return false without
moving the index. -/
theorem nav_bounds (s : TrackerState) (n : Int)
    (h1 : 0 ≤ s.current_slide_index)
    (h2 : s.current_slide_index ≤ s.total_slides - 1) :
    NavBoundsProp s n := by
  unfold NavBoundsProp next_slide previous_slide go_to_slide
  refine ⟨?_, ?_, ?_, ?_, ?_, ?_⟩ <;> split_ifs <;> simp_all <;> omega

/-- Witness for nav_bounds at the sample state with target slide 2. -/
theorem nav_bounds_w :
    0 ≤ sampleState.current_slide_index ∧
    sampleState.current_slide_index ≤ sampleState.total_slides - 1 ∧
    NavBoundsProp sampleState 2 :=
  ⟨by decide, by decide, nav_bounds sampleState 2 (by decide) (by decide)⟩

/-! ### Claim C9: navigation frame condition -/

/-- Equality of every tracker attribute except the slide index. -/
def navFrameEq (t s : TrackerState) : Prop :=
  t.ppt_path = s.ppt_path ∧ t.slides = s.slides ∧
  t.total_slides = s.total_slides ∧
  t.auto_sync_enabled = s.auto_sync_enabled ∧
  t.is_ppt_file = s.is_ppt_file ∧
  t.window_based_tracking = s.window_based_tracking

/-- Claim C9: next_slide, previous_slide and go_to_slide change at most
current_slide_index; every other attribute of the tracker is preserved
whether the call succeeds or fails. -/
theorem nav_frame (s : TrackerState) (n : Int) :
    navFrameEq (next_slide s).2 s ∧ navFrameEq (previous_slide s).2 s ∧
    navFrameEq (go_to_slide s n).2 s := by
  unfold navFrameEq next_slide previous_slide go_to_slide
  refine ⟨?_, ?_, ?_⟩ <;> split_ifs <;> simp

/-! ### Claim C10: out-of-range text extraction -/

/-- Claim C10: extract_slide_text on any index outside the range 0 to
total_slides - 1, also when total_slides is 0, returns the empty string
and leaves the tracker state untouched. -/
theorem extract_text_out_of_range (s : TrackerState) (i : Int)
    (h : ¬(0 ≤ i ∧ i < s.total_slides)) :
    extract_slide_text s (some i) = ("", s) := by
  simp [extract_slide_text, h]

/-- Witness for extract_text_out_of_range: index 5 of a three-slide
tracker and index 0 of an unloaded tracker with zero slides. -/
theorem extract_text_out_of_range_w :
    ¬(0 ≤ (5 : Int) ∧ (5 : Int) < sampleState.total_slides) ∧
    ¬(0 ≤ (0 : Int) ∧ (0 : Int) < emptyState.total_slides) ∧
    extract_slide_text sampleState (some 5) = ("", sampleState) ∧
    extract_slide_text emptyState (some 0) = ("", emptyState) :=
  ⟨by decide, by decide, extract_text_out_of_range sampleState 5 (by decide),
    extract_text_out_of_range emptyState 0 (by decide)⟩

/-! ### Claim C1: range invariant of reconciliation -/

/-- Claim C1 counterexample: a valid window-tracked state (index 4 with
total 5) fed one signal carrying an out-of-range current_slide together
with a smaller total_slides ends with its index strictly above
total_slides - 1, so the claimed invariant fails after that call. -/
theorem sync_range_cex :
    (0 ≤ cexTracker.current_slide_index ∧
      cexTracker.current_slide_index ≤ cexTracker.total_slides - 1 ∧
      0 < cexTracker.total_slides ∧ cexTracker.window_based_tracking = true) ∧
    (sync_with_powerpoint_window cexTracker true (some cexShrinkSignal)).2.total_slides - 1 <
      (sync_with_powerpoint_window cexTracker true (some cexShrinkSignal)).2.current_slide_index := by
  decide

/-- Single-step preservation outside window-based mode. -/
theorem reconcileStep_nonwb (s : TrackerState) (sig : Option SlideInfo)
    (hw : s.window_based_tracking = false)
    (h1 : 0 ≤ s.current_slide_index)
    (h2 : s.current_slide_index < s.total_slides) :
    (reconcileStep s sig).window_based_tracking = false ∧
    (reconcileStep s sig).total_slides = s.total_slides ∧
    0 ≤ (reconcileStep s sig).current_slide_index ∧
    (reconcileStep s sig).current_slide_index < s.total_slides := by
  cases sig with
  | none => exact ⟨hw, rfl, h1, h2⟩
  | some si =>
    have ha : applyWindowTotal s si = s := by
      unfold applyWindowTotal
      rw [hw]
      simp
    simp only [reconcileStep, sync_with_powerpoint_window, ha]
    split_ifs <;> simp_all
    omega

/-- Invariant preservation along a whole polling history outside
window-based mode. -/
theorem foldl_reconcile_nonwb (sigs : List (Option SlideInfo)) (s : TrackerState)
    (hw : s.window_based_tracking = false)
    (h1 : 0 ≤ s.current_slide_index)
    (h2 : s.current_slide_index < s.total_slides) :
    (sigs.foldl reconcileStep s).window_based_tracking = false ∧
    (sigs.foldl reconcileStep s).total_slides = s.total_slides ∧
    0 ≤ (sigs.foldl reconcileStep s).current_slide_index ∧
    (sigs.foldl reconcileStep s).current_slide_index < s.total_slides := by
  induction sigs generalizing s with
  | nil => exact ⟨hw, rfl, h1, h2⟩
  | cons a t ih =>
    obtain ⟨pw, pt, p1, p2⟩ := reconcileStep_nonwb s a hw h1 h2
    obtain ⟨qw, qt, q1, q2⟩ := ih (reconcileStep s a) pw p1 (pt ▸ p2)
    exact ⟨qw, by simpa [pt] using qt, q1, by simpa [pt] using q2⟩

/-- The multi-step range invariant for a tracker that is not in
window-based mode. -/
def ReconcileRangeProp (s : TrackerState) (sigs : List (Option SlideInfo)) : Prop :=
  0 ≤ (sigs.foldl reconcileStep s).current_slide_index ∧
  (sigs.foldl reconcileStep s).current_slide_index <
    (sigs.foldl reconcileStep s).total_slides ∧
  (sigs.foldl reconcileStep s).total_slides = s.total_slides

/-- Claim C1 amended: with window_based_tracking off, any finite sequence
of sync_with_powerpoint_window calls keeps current_slide_index inside the
range 0 to total_slides - 1 and never changes total_slides; moreover, for
every state, a signal whose detected slide is out of range after the
window-based total update is dropped with a false return, and the
total update itself never moves the index.  (The unamended invariant
fails exactly when a window-based total update shrinks total_slides below
current_slide_index + 1, as the counterexample shows.) -/
theorem sync_range_amended (s : TrackerState) (sigs : List (Option SlideInfo))
    (hw : s.window_based_tracking = false)
    (h1 : 0 ≤ s.current_slide_index)
    (h2 : s.current_slide_index < s.total_slides) :
    ReconcileRangeProp s sigs ∧
    (∀ (t : TrackerState) (si : SlideInfo),
      truthyNat si.current_slide = true →
      ¬(1 ≤ detectedSlide si ∧ detectedSlide si ≤ (applyWindowTotal t si).total_slides) →
      sync_with_powerpoint_window t true (some si) = (false, applyWindowTotal t si)) ∧
    (∀ (t : TrackerState) (si : SlideInfo),
      (applyWindowTotal t si).current_slide_index = t.current_slide_index) := by
  refine ⟨?_, ?_, ?_⟩
  · obtain ⟨_, qt, q1, q2⟩ := foldl_reconcile_nonwb sigs s hw h1 h2
    exact ⟨q1, by omega, qt⟩
  · intro t si hc hr
    unfold sync_with_powerpoint_window
    simp [hc, hr]
  · intro t si
    unfold applyWindowTotal
    split_ifs <;> rfl

/-- Witness for sync_range_amended: the sample tracker run through a
short polling history, and the dropped-signal clause instantiated at the
counterexample state and signal. -/
theorem sync_range_amended_w :
    sampleState.window_based_tracking = false ∧
    0 ≤ sampleState.current_slide_index ∧
    sampleState.current_slide_index < sampleState.total_slides ∧
    ReconcileRangeProp sampleState sampleSignals ∧
    sync_with_powerpoint_window cexTracker true (some cexShrinkSignal) =
      (false, applyWindowTotal cexTracker cexShrinkSignal) ∧
    (applyWindowTotal cexTracker cexShrinkSignal).current_slide_index =
      cexTracker.current_slide_index :=
  ⟨by decide, by decide, by decide,
    (sync_range_amended sampleState sampleSignals (by decide) (by decide) (by decide)).1,
    (sync_range_amended sampleState sampleSignals (by decide) (by decide) (by decide)).2.1
      cexTracker cexShrinkSignal (by decide) (by decide),
    (sync_range_amended sampleState sampleSignals (by decide) (by decide) (by decide)).2.2
      cexTracker cexShrinkSignal⟩

/-! ### Claim C2: the return value of reconciliation -/

theorem applyWindowTotal_index (s : TrackerState) (si : SlideInfo) :
    (applyWindowTotal s si).current_slide_index = s.current_slide_index := by
  unfold applyWindowTotal
  split_ifs <;> rfl

theorem applyWindowTotal_idem (s : TrackerState) (si : SlideInfo) :
    applyWindowTotal (applyWindowTotal s si) si = applyWindowTotal s si := by
  by_cases h : s.window_based_tracking = true ∧ truthyNat si.total_slides = true
  · simp only [applyWindowTotal, if_pos h]
  · simp only [applyWindowTotal, if_neg h]

theorem applyWindowTotal_set_index (s : TrackerState) (si : SlideInfo) (x : Int) :
    applyWindowTotal { s with current_slide_index := x } si =
      { applyWindowTotal s si with current_slide_index := x } := by
  by_cases h : s.window_based_tracking = true ∧ truthyNat si.total_slides = true
  · simp only [applyWindowTotal]
    rw [if_pos h, if_pos h]
  · simp only [applyWindowTotal]
    rw [if_neg h, if_neg h]

/-- Claim C2: sync_with_powerpoint_window returns true exactly when the
stored slide index changed during the call, and a second call with the
same signal returns false and leaves the state it produced unchanged. -/
theorem sync_true_iff_changed (s : TrackerState) (hasDet : Bool)
    (info : Option SlideInfo) :
    ((sync_with_powerpoint_window s hasDet info).1 = true ↔
      (sync_with_powerpoint_window s hasDet info).2.current_slide_index ≠
        s.current_slide_index) ∧
    sync_with_powerpoint_window (sync_with_powerpoint_window s hasDet info).2 hasDet info =
      (false, (sync_with_powerpoint_window s hasDet info).2) := by
  cases hasDet with
  | false => simp [sync_with_powerpoint_window]
  | true =>
    cases info with
    | none => simp [sync_with_powerpoint_window]
    | some si =>
      by_cases hc : truthyNat si.current_slide = false
      · simp [sync_with_powerpoint_window, hc]
      · by_cases hr : 1 ≤ detectedSlide si ∧ detectedSlide si ≤ (applyWindowTotal s si).total_slides
        · by_cases hd : detectedSlide si - 1 = (applyWindowTotal s si).current_slide_index
          · have hfirst :
                sync_with_powerpoint_window s true (some si) = (false, applyWindowTotal s si) := by
              simp [sync_with_powerpoint_window, hc, hr, hd]
            rw [hfirst]
            constructor
            · simp [hfirst, applyWindowTotal_index]
            · simp [sync_with_powerpoint_window, hc, applyWindowTotal_idem, hr, hd]
          · have hfirst :
                sync_with_powerpoint_window s true (some si) =
                  (true, { applyWindowTotal s si with
                            current_slide_index := detectedSlide si - 1 }) := by
              simp [sync_with_powerpoint_window, hc, hr, hd]
            rw [hfirst]
            constructor
            · simp [applyWindowTotal_index] at hd ⊢
              exact hd
            · simp [sync_with_powerpoint_window, hc, applyWindowTotal_set_index,
                applyWindowTotal_idem, hr]
        · have hfirst :
              sync_with_powerpoint_window s true (some si) = (false, applyWindowTotal s si) := by
            simp [sync_with_powerpoint_window, hc, hr]
          rw [hfirst]
          constructor
          · simp [hfirst, applyWindowTotal_index]
          · simp [sync_with_powerpoint_window, hc, applyWindowTotal_idem, hr]

/-! ### Claim C5: titles matching Slide N of M -/

/-- Claim C5: whenever the first pattern finds N and M in a title, the
title parser reports current_slide N and total_slides M, and on the title
Slide Show - Slide 3 of 8 it reports slideshow mode with slide 3 of 8. -/
theorem title_parse_n_of_m :
    (∀ (t : String) (n m : Nat),
      searchP1 t.toList = some (n, m) →
      (parseTitleInfo t).current_slide = some n ∧
        (parseTitleInfo t).total_slides = some m) ∧
    ((parseTitleInfo "Slide Show - Slide 3 of 8").current_slide = some 3 ∧
      (parseTitleInfo "Slide Show - Slide 3 of 8").total_slides = some 8 ∧
      (parseTitleInfo "Slide Show - Slide 3 of 8").mode = "slideshow") := by
  constructor
  · intro t n m h
    simp only [parseTitleInfo, patternNumbers, h]
    simp
  · exact ⟨by decide, by decide, by decide⟩

/-- Witness for title_parse_n_of_m at the Slide Show example title. -/
theorem title_parse_n_of_m_w :
    searchP1 ("Slide Show - Slide 3 of 8".toList) = some (3, 8) ∧
    (parseTitleInfo "Slide Show - Slide 3 of 8").current_slide = some 3 ∧
    (parseTitleInfo "Slide Show - Slide 3 of 8").total_slides = some 8 :=
  ⟨by decide,
    (title_parse_n_of_m.1 "Slide Show - Slide 3 of 8" 3 8 (by decide)).1,
    (title_parse_n_of_m.1 "Slide Show - Slide 3 of 8" 3 8 (by decide)).2⟩

/-! ### Claim C7: titles matching no pattern -/

/-- Claim C7 counterexample: the title hello matches none of the four
patterns, yet the parser reports mode normal, not mode unknown, and the
result dictionary carries no confidence entry at all. -/
theorem title_parse_no_match_cex :
    patternNumbers ("hello".toList) = none ∧
    (extract_slide_info_from_title OS.windows RunResult.failed "hello").current_slide = none ∧
    (extract_slide_info_from_title OS.windows RunResult.failed "hello").mode = "normal" ∧
    (extract_slide_info_from_title OS.windows RunResult.failed "hello").mode ≠ "unknown" := by
  decide

/-- Claim C7 amended: off macOS the function is exactly the title parser,
and on a title matching no pattern the parser returns current_slide None
and total_slides None, with the mode inferred from the Slide Show, Normal
and Edit substrings of the title, which is never the string unknown. -/
theorem title_parse_no_match_amended :
    (∀ (sys : OS) (r : RunResult) (t : String),
      sys ≠ OS.darwin → extract_slide_info_from_title sys r t = parseTitleInfo t) ∧
    (∀ t : String, patternNumbers t.toList = none →
      (parseTitleInfo t).current_slide = none ∧
      (parseTitleInfo t).total_slides = none ∧
      (parseTitleInfo t).mode = modeFromTitle t.toList ∧
      (parseTitleInfo t).mode ≠ "unknown") := by
  constructor
  · intro sys r t hs
    simp [extract_slide_info_from_title, hs]
  · intro t h
    simp only [String.toList] at h
    refine ⟨by simp [parseTitleInfo, h], by simp [parseTitleInfo, h], by simp [parseTitleInfo], ?_⟩
    have hm : (parseTitleInfo t).mode = modeFromTitle t.toList := by
      simp [parseTitleInfo]
    rw [hm]
    unfold modeFromTitle
    split_ifs <;> decide

/-- Witness for title_parse_no_match_amended at the title hello on a
non-macOS system. -/
theorem title_parse_no_match_amended_w :
    OS.windows ≠ OS.darwin ∧
    patternNumbers ("hello".toList) = none ∧
    extract_slide_info_from_title OS.windows RunResult.failed "hello" = parseTitleInfo "hello" ∧
    ((parseTitleInfo "hello").current_slide = none ∧
      (parseTitleInfo "hello").total_slides = none ∧
      (parseTitleInfo "hello").mode = modeFromTitle ("hello".toList) ∧
      (parseTitleInfo "hello").mode ≠ "unknown") :=
  ⟨by decide, by decide,
    title_parse_no_match_amended.1 OS.windows RunResult.failed "hello" (by decide),
    title_parse_no_match_amended.2 "hello" (by decide)⟩

/-! ### Claim C3: merge precedence of the detection cascade -/

/-- A Windows editing window whose title carries slide 2 of 10. -/
def cexWindow : WindowInfo :=
  { title := "Deck.pptx - Slide 2 of 10", app_name := "POWERPNT.EXE",
    size := some (1024, 768) }

/-- An OCR reading that disagrees with the title, claiming slide 7. -/
def cexScreen : ScreenInfo :=
  { slide_number := some 7, content := "OCR paragraph", title := "OCR Title",
    confidence_score := 90 }

/-- A Windows environment where title parsing finds slide 2 but extracts
no slide text, and the screen detector is available. -/
def cexDetectEnv : DetectorEnv :=
  { system := OS.windows, pptDetector := none, windows := [cexWindow],
    asRun := RunResult.failed, screenDetector := some (some cexScreen) }

/-- Claim C3 counterexample: the higher-precedence title parse yields
current_slide 2, but because its slide_text is empty the OCR fallback
runs and overwrites current_slide with 7, so a fallback source does
overwrite a non-None field of a higher-precedence source. -/
theorem detect_merge_overwrite_cex :
    (extract_slide_info_from_title cexDetectEnv.system cexDetectEnv.asRun
        cexWindow.title).current_slide = some 2 ∧
    get_current_slide_info cexDetectEnv =
      some (ocrMerge
        (extract_slide_info_from_title cexDetectEnv.system cexDetectEnv.asRun cexWindow.title)
        cexScreen) ∧
    ((get_current_slide_info cexDetectEnv).getD (modeOnly "none")).current_slide = some 7 := by
  decide

/-- A borderline macOS window with an uninformative title. -/
def retWindow : WindowInfo :=
  { title := "ZZZ", app_name := "Microsoft PowerPoint", size := some (800, 600) }

/-- A successful AppleScript reply reporting slide 5 of 8 with text. -/
def asSuccessRun : RunResult :=
  RunResult.completed 0 "My.pptx|5|8|slideshow|Hello "

/-- A macOS environment where the AppleScript source supplies both the
slide number and nonempty slide text, while OCR is also available. -/
def retEnv : DetectorEnv :=
  { system := OS.darwin, pptDetector := none, windows := [retWindow],
    asRun := asSuccessRun, screenDetector := some (some cexScreen) }

/-- Claim C3 amended: a truthy current_slide accompanied by nonempty
slide_text is returned unchanged, with no OCR overwrite; and on macOS,
when the AppleScript query is consulted and yields a truthy
current_slide, its whole result is returned and title parsing cannot
override it.  (When slide_text is empty the OCR fallback may overwrite a
non-None current_slide, as the counterexample shows.) -/
theorem detect_merge_retention :
    (∀ (env : DetectorEnv) (w : WindowInfo),
      pptSpecializedResult env = none →
      get_active_powerpoint_window env.windows = some w →
      truthyNat (extract_slide_info_from_title env.system env.asRun w.title).current_slide
        = true →
      truthyStr (extract_slide_info_from_title env.system env.asRun w.title).slide_text
        = true →
      get_current_slide_info env =
        some (extract_slide_info_from_title env.system env.asRun w.title)) ∧
    (∀ (r : RunResult) (t : String),
      needsAppleScript t = true →
      truthyNat (get_powerpoint_slide_info_macos r).current_slide = true →
      extract_slide_info_from_title OS.darwin r t = get_powerpoint_slide_info_macos r) := by
  constructor
  · intro env w hp hw hc ht
    simp only [get_current_slide_info, hp, hw]
    simp [hc, ht]
  · intro r t hn htr
    simp [extract_slide_info_from_title, hn, htr]

/-- Witness for detect_merge_retention: the AppleScript-backed macOS
environment keeps slide 5, and the native result wins over the title
2 OF 8 that would parse as slide 2. -/
theorem detect_merge_retention_w :
    pptSpecializedResult retEnv = none ∧
    get_active_powerpoint_window retEnv.windows = some retWindow ∧
    truthyNat (extract_slide_info_from_title retEnv.system retEnv.asRun
      retWindow.title).current_slide = true ∧
    truthyStr (extract_slide_info_from_title retEnv.system retEnv.asRun
      retWindow.title).slide_text = true ∧
    get_current_slide_info retEnv =
      some (extract_slide_info_from_title retEnv.system retEnv.asRun retWindow.title) ∧
    needsAppleScript "2 OF 8" = true ∧
    truthyNat (get_powerpoint_slide_info_macos asSuccessRun).current_slide = true ∧
    extract_slide_info_from_title OS.darwin asSuccessRun "2 OF 8" =
      get_powerpoint_slide_info_macos asSuccessRun :=
  ⟨by decide, by decide, by decide, by decide,
    detect_merge_retention.1 retEnv retWindow (by decide) (by decide) (by decide) (by decide),
    by decide, by decide,
    detect_merge_retention.2 asSuccessRun "2 OF 8" (by decide) (by decide)⟩

/-! ### Claim C6: behaviour on an empty window list -/

/-- A non-macOS environment in which no presentation window exists. -/
def cexEnvEmpty : DetectorEnv :=
  { system := OS.windows, pptDetector := none, windows := [],
    asRun := RunResult.failed, screenDetector := none }

/-- Claim C6 counterexample: with an empty window list on a non-macOS
system, get_current_slide_info returns None, not a dictionary whose mode
is no_presentation. -/
theorem detect_empty_windows_cex :
    cexEnvEmpty.windows = [] ∧ get_current_slide_info cexEnvEmpty = none := by
  decide

/-- Claim C6 amended: with an empty window list the detector never
raises; off macOS it returns None, and on macOS it returns the
AppleScript/empty-title fallback dictionary, not a mode no_presentation
signal. -/
theorem detect_empty_windows_amended (env : DetectorEnv)
    (hw : env.windows = []) (hp : pptSpecializedResult env = none) :
    (env.system ≠ OS.darwin → get_current_slide_info env = none) ∧
    (env.system = OS.darwin →
      get_current_slide_info env =
        some (extract_slide_info_from_title env.system env.asRun "")) := by
  simp only [get_current_slide_info, hp, hw]
  constructor
  · intro h
    simp [get_active_powerpoint_window, h]
  · intro h
    simp [get_active_powerpoint_window, h]

/-- Witness for detect_empty_windows_amended at the empty Windows
environment. -/
theorem detect_empty_windows_amended_w :
    cexEnvEmpty.windows = [] ∧
    pptSpecializedResult cexEnvEmpty = none ∧
    ((cexEnvEmpty.system ≠ OS.darwin → get_current_slide_info cexEnvEmpty = none) ∧
      (cexEnvEmpty.system = OS.darwin →
        get_current_slide_info cexEnvEmpty =
          some (extract_slide_info_from_title cexEnvEmpty.system cexEnvEmpty.asRun ""))) :=
  ⟨by decide, by decide, detect_empty_windows_amended cexEnvEmpty (by decide) (by decide)⟩

/-! ### Claim C8: timeout and error mapping of the AppleScript query -/

/-- Claim C8 counterexample: when the osascript subprocess hits its
timeout, the function returns mode exception, not mode timeout. -/
theorem macos_timeout_mode_cex :
    (get_powerpoint_slide_info_macos RunResult.timedOut).mode = "exception" ∧
    (get_powerpoint_slide_info_macos RunResult.timedOut).mode ≠ "timeout" := by
  decide

/-- Claim C8 amended: the subprocess timeout is 8 seconds, inside the
stated 5 to 8 band; a timeout and any other subprocess failure map to a
mode exception dictionary rather than an exception or a timeout mode; a
scripted no_presentation reply maps to mode no_presentation and a
scripted error reply to mode error, so bridge errors are never
propagated to the caller. -/
theorem macos_query_error_mapping :
    (5 ≤ macosQueryTimeout ∧ macosQueryTimeout ≤ 8) ∧
    get_powerpoint_slide_info_macos RunResult.timedOut = modeOnly "exception" ∧
    get_powerpoint_slide_info_macos RunResult.failed = modeOnly "exception" ∧
    (∀ out : String,
      pyStrip out ≠ "" →
      4 ≤ (pySplit "|" (pyStrip out)).length →
      (((pySplit "|" (pyStrip out)).getD 0 "" = "no_presentation" →
          get_powerpoint_slide_info_macos (RunResult.completed 0 out) =
            modeOnly "no_presentation") ∧
        ((pySplit "|" (pyStrip out)).getD 0 "" = "error" →
          get_powerpoint_slide_info_macos (RunResult.completed 0 out) =
            modeOnly "error"))) := by
  refine ⟨by decide, by decide, by decide, ?_⟩
  intro out h1 h2
  constructor
  · intro h3
    simp [List.getD] at h3
    simp [get_powerpoint_slide_info_macos, h1, h2, h3]
  · intro h3
    simp [List.getD] at h3
    simp [get_powerpoint_slide_info_macos, h1, h2, h3]

/-- Witness for macos_query_error_mapping at the two scripted replies the
AppleScript emits for a missing presentation and for an error. -/
theorem macos_query_error_mapping_w :
    pyStrip "no_presentation||||" ≠ "" ∧
    4 ≤ (pySplit "|" (pyStrip "no_presentation||||")).length ∧
    (pySplit "|" (pyStrip "no_presentation||||")).getD 0 "" = "no_presentation" ∧
    get_powerpoint_slide_info_macos (RunResult.completed 0 "no_presentation||||") =
      modeOnly "no_presentation" ∧
    pyStrip "error|boom|||" ≠ "" ∧
    4 ≤ (pySplit "|" (pyStrip "error|boom|||")).length ∧
    (pySplit "|" (pyStrip "error|boom|||")).getD 0 "" = "error" ∧
    get_powerpoint_slide_info_macos (RunResult.completed 0 "error|boom|||") =
      modeOnly "error" :=
  ⟨by decide, by decide, by decide,
    (macos_query_error_mapping.2.2.2 "no_presentation||||" (by decide) (by decide)).1 (by decide),
    by decide, by decide, by decide,
    (macos_query_error_mapping.2.2.2 "error|boom|||" (by decide) (by decide)).2 (by decide)⟩

end QuePilot
